import Mathlib

/-!
Verification of the dialogue-orchestration engine of the UDL assessment
chatbot (src/app.py) against its natural-language specification.

The Python program is shallowly embedded: the per-session record is a
structure, the external OpenAI-backed capabilities (slot extraction,
alignment classification, content generation, PDF text extraction) are
an oracle record whose calls either return the raw response text or
fail (matching a raised exception in the source), and the `/api/chat`
handler is a fuel-indexed function (the only self-call in the source is
the `return chat()` re-dispatch from the `End` state, and Python's
`RecursionError` would surface as the generic 500 handler, which the
fuel-0 case mirrors).  Outbound prose is truncated to its opening
heading: the claims only depend on whether a response is empty and on
which capability output it embeds, never on the full marketing text.
-/

namespace UDL

/-- Substring helper: `leadMatch n h` is true when `n` is an initial
segment of `h` (used to embed Python's `in` on strings). -/
def leadMatch : List Char → List Char → Bool
  | [], _ => true
  | _ :: _, [] => false
  | a :: as, b :: bs => a == b && leadMatch as bs

/-- Substring helper: `subMatch n h` is true when `n` occurs contiguously
inside `h`. -/
def subMatch (needle : List Char) : List Char → Bool
  | [] => needle.isEmpty
  | b :: bs => leadMatch needle (b :: bs) || subMatch needle bs

/-- Python's `needle in hay` for strings. -/
def containsStr (hay needle : String) : Bool :=
  subMatch needle.data hay.data

/-- Python's default whitespace set for `str.strip`. -/
def pySpace (c : Char) : Bool :=
  c == ' ' || c == '\t' || c == '\n' || c == '\r' || c == '\x0b' || c == '\x0c'

/-- Python `str.strip()`: drop whitespace from both ends.  (Defined over
the character list so the kernel can evaluate it, unlike `String.trim`.) -/
def pyStrip (s : String) : String :=
  ⟨((s.data.dropWhile pySpace).reverse.dropWhile pySpace).reverse⟩

/-- Python `str.lower()`. -/
def pyLower (s : String) : String := ⟨s.data.map Char.toLower⟩

/-- Python `str.upper()`. -/
def pyUpper (s : String) : String := ⟨s.data.map Char.toUpper⟩

/-- Python falsiness test of a string (`not s`). -/
def pyIsEmpty (s : String) : Bool := s.data.isEmpty

/-- Python `str.startswith`. -/
def pyStartsWith (s pat : String) : Bool := leadMatch pat.data s.data

/-- Python `str.endswith`. -/
def pyEndsWith (s pat : String) : Bool := leadMatch pat.data.reverse s.data.reverse

/-- Drop the first `n` characters (Python slicing past a known literal,
used for `line.split(c, 1)[1]` where `c` closes the matched literal). -/
def pyDrop (s : String) (n : Nat) : String := ⟨s.data.drop n⟩

/-- Helper for Python `str.split(nl)` with `nl` the newline character. -/
def splitLinesAux : List Char → List Char → List String
  | [], acc => [⟨acc.reverse⟩]
  | c :: cs, acc =>
      if c == '\n' then ⟨acc.reverse⟩ :: splitLinesAux cs []
      else splitLinesAux cs (c :: acc)

/-- Python `response_text.split` on newline. -/
def pySplitLines (s : String) : List String := splitLinesAux s.data []

/-- Python truthiness of an optional string (`None` and `""` are falsy). -/
def truthy : Option String → Bool
  | none => false
  | some s => !pyIsEmpty s

/-- Python string interpolation of a possibly-missing value: `None`
prints as the four-character string. -/
def pyStr : Option String → String
  | none => "None"
  | some s => s

/-- Python's `a or b` for an optional string `a` and default `b`. -/
def orDefault (v : Option String) (d : String) : String :=
  match v with
  | none => d
  | some s => if pyIsEmpty s then d else s

/-- One transcript entry (`role`/`content` keys of the message dicts in
src/app.py; wall-clock timestamps are not modelled). -/
structure ChatMessage where
  role : String
  content : String
deriving Repr, DecidableEq

/-- The per-session context dict.  The five fields initialised by
`get_or_create_session` plus the keys added later by the handler
(`last_assessments`, `last_quality_check`, `evaluation_report`); a key
that is absent from the Python dict is `none` here, matching `.get`. -/
structure Context where
  learning_objectives : Option String
  grade_level : Option String
  subject : Option String
  assessment_content : Option String
  assessment_alignment : Option String
  last_assessments : Option String
  last_quality_check : Option String
  evaluation_report : Option String
deriving Repr, DecidableEq

/-- A session record as stored in `chat_sessions` (timestamps omitted:
no claim depends on them). -/
structure Session where
  messages : List ChatMessage
  state : String
  branch : Option String
  context : Context
deriving Repr, DecidableEq

/-- The context built by `get_or_create_session` / the `End`-state reset /
`reset_session`: every field `None`. -/
def freshContext : Context :=
  ⟨none, none, none, none, none, none, none, none⟩

/-- The record built by `get_or_create_session` and `reset_session`. -/
def freshSession : Session :=
  ⟨[], "Start", none, freshContext⟩

/-- External capabilities (the OpenAI client plus PyPDF2), abstracted as
an oracle.  `clientConfigured` is `client is not None`; each call either
returns the raw completion text (`ok`) or raises (`error e`, where `e`
is `str(e)` of the exception). -/
structure Oracle where
  clientConfigured : Bool
  extractInfo : String → Except String String
  classifyAlignment : String → Except String String
  generateOptions : Context → Except String String
  evaluateAssessment : String → Except String String
  applyRefinements : String → String → Context → Except String String

/-- The literal returned by the generation-flavoured wrappers when no
API key is configured. -/
def noKeyMessage : String :=
  "OpenAI API key not configured. Please add your API key to the .env file."

/-- `extract_basic_info` of src/app.py: returns the completion text, or
the no-key message, or an `Error extracting information:` string when
the call raises. -/
def extract_basic_info (o : Oracle) (user_message : String) : String :=
  if o.clientConfigured = false then noKeyMessage
  else
    match o.extractInfo user_message with
    | Except.ok content => content
    | Except.error e => "Error extracting information: " ++ e

/-- `classify_assessment_udl_alignment` of src/app.py: with no client it
returns the literal `NOT_ALIGNED`; otherwise the stripped upper-cased
completion is mapped to `aligned` exactly when it contains `ALIGNED`
and does not contain `NOT`; any raised exception yields `not_aligned`. -/
def classify_assessment_udl_alignment (o : Oracle) (assessment_content : String) : String :=
  if o.clientConfigured = false then "NOT_ALIGNED"
  else
    match o.classifyAlignment assessment_content with
    | Except.ok content =>
        let result := pyUpper (pyStrip content)
        if containsStr result "ALIGNED" && !containsStr result "NOT" then "aligned"
        else "not_aligned"
    | Except.error _ => "not_aligned"

/-- `generate_udl_assessment_options` of src/app.py. -/
def generate_udl_assessment_options (o : Oracle) (context : Context) : String :=
  if o.clientConfigured = false then noKeyMessage
  else
    match o.generateOptions context with
    | Except.ok content => content
    | Except.error e => "Error generating assessments: " ++ e

/-- `evaluate_assessment_udl` of src/app.py. -/
def evaluate_assessment_udl (o : Oracle) (assessment_content : String) : String :=
  if o.clientConfigured = false then noKeyMessage
  else
    match o.evaluateAssessment assessment_content with
    | Except.ok content => content
    | Except.error e => "Error evaluating assessment: " ++ e

/-- `apply_user_refinements` of src/app.py. -/
def apply_user_refinements (o : Oracle) (assessments_markdown user_suggestions : String)
    (context : Context) : String :=
  if o.clientConfigured = false then noKeyMessage
  else
    match o.applyRefinements assessments_markdown user_suggestions context with
    | Except.ok content => content
    | Except.error e => "Error applying refinements: " ++ e

/-- `extract_text_from_pdf` of src/app.py: the concatenated page text is
stripped; a raised exception becomes an `Error extracting PDF:` string.
The argument is the outcome of the PyPDF2 read. -/
def extract_text_from_pdf (pdfRead : Except String String) : String :=
  match pdfRead with
  | Except.ok text => pyStrip text
  | Except.error e => "Error extracting PDF: " ++ e

/-- The three slot fields produced by `parse_extracted_info`. -/
structure ExtractedInfo where
  learning_objectives : Option String
  grade_level : Option String
  subject : Option String
deriving Repr, DecidableEq

/-- `parse_extracted_info` of src/app.py: scan the response lines;
`OBJECTIVES:` always assigns, `GRADE:`/`SUBJECT:` assign unless the
remainder (after the first colon, stripped) is `Not specified`.  The
`line.split(chr 58, 1)[1]` of the source equals dropping the matched
prefix, since the prefix ends at the line's first colon. -/
def parse_extracted_info (response_text : String) : ExtractedInfo :=
  (pySplitLines response_text).foldl
    (fun ctx line =>
      if pyStartsWith line "OBJECTIVES:" then
        { ctx with learning_objectives := some (pyStrip (pyDrop line 11)) }
      else if pyStartsWith line "GRADE:" then
        let grade := pyStrip (pyDrop line 6)
        if grade != "Not specified" then { ctx with grade_level := some grade } else ctx
      else if pyStartsWith line "SUBJECT:" then
        let subject := pyStrip (pyDrop line 8)
        if subject != "Not specified" then { ctx with subject := some subject } else ctx
      else ctx)
    ⟨none, none, none⟩

/-- The `session.context.update(extracted_context)` step of the chat
handler: the parse result always carries all three keys, so all three
slot fields are replaced unconditionally. -/
def mergeExtracted (c : Context) (e : ExtractedInfo) : Context :=
  { c with
    learning_objectives := e.learning_objectives
    grade_level := e.grade_level
    subject := e.subject }

/-- The affirmative keyword list used at `DesignInputReceived` and
`EvaluateNotAligned` in src/app.py. -/
def affirmatives : List String := ["yes", "y", "yeah", "yep", "sure"]

/-- The finalisation keyword list of `QualityCheckPhase` / `IterationPhase`. -/
def finalizeWords : List String := ["finalize", "done", "finish", "no more changes"]

/-- The re-prompt keyword list of `QualityCheckPhase`. -/
def continueWords : List String := ["", "continue", "next", "ok"]

/-- Outbound-text constants of the chat handler, truncated to their
opening heading (the full prose, emoji and embedded HTML of src/app.py
carry no information any claim depends on beyond non-emptiness). -/
def designModePrompt : String := "# Design Mode Selected"

/-- Heading of the Start-state `evaluate` response. -/
def evaluateModePrompt : String := "# Evaluation Mode Selected"

/-- Heading of the Start-state fallback response. -/
def welcomePrompt : String := "# Welcome to the UDL Assessment Assistant!"

/-- The `DesignMode` response embeds the raw extractor output. -/
def designInfoResponse (info_response : String) : String :=
  "# Information Received\n\n" ++ info_response ++
    "\n\n---\n\nDo you have an assessment that you would like to create UDL options for?"

/-- The `EvaluateMode` response embeds the raw extractor output. -/
def evaluateInfoResponse (info_response : String) : String :=
  "# Information Received\n\n" ++ info_response ++
    "\n\n---\n\nCould you upload the assessment for evaluation?"

/-- Heading of the `DesignInputReceived` affirmative response. -/
def assessmentUploadPrompt : String := "# Assessment Upload Needed"

/-- Heading of both `DesignAssessmentYes` responses. -/
def assessmentReceivedPrompt : String := "# Assessment Received"

/-- Response embedding a freshly generated assessment set. -/
def assessmentOptionsResponse (assessments : String) : String :=
  "# UDL Assessment Options & Rubric\n\n" ++ assessments ++
    "\n\n---\n\nShare any suggestions. Type finalize when done."

/-- The `DesignAssessmentNo` variant of the options response. -/
def assessmentOptionsQCResponse (assessments : String) : String :=
  "# UDL Assessment Options & Rubric\n\n" ++ assessments ++
    "\n\n---\n\n## Quality Check Phase"

/-- Evaluation report for an aligned assessment. -/
def alignedReportResponse (evaluation : String) : String :=
  "# UDL Assessment Evaluation Report\n\n" ++ evaluation ++
    "\n\n---\n\n## This assignment is aligned with UDL guidelines!"

/-- Evaluation report for a not-aligned assessment. -/
def notAlignedReportResponse (evaluation : String) : String :=
  "# UDL Assessment Evaluation Report\n\n" ++ evaluation ++
    "\n\n---\n\n## This assignment is not fully aligned with UDL guidelines."

/-- The `EvaluateAligned` closing report. -/
def evaluationCompleteResponse (evaluation : String) : String :=
  "# UDL Assessment Evaluation Report\n\n" ++ evaluation ++
    "\n\n---\n\n## Evaluation Complete"

/-- The `EvaluateNotAligned` negative-path analysis report. -/
def analysisReportResponse (evaluation : String) : String :=
  "# Assessment Analysis Report\n\n" ++ evaluation ++ "\n\n---\n\n## Analysis Complete"

/-- Heading of the `ProvideNotAlignedReason` response. -/
def sessionCompletePrompt : String := "# Session Complete"

/-- Heading of the finalisation response. -/
def sessionFinalizedPrompt : String := "# Session Finalized"

/-- Heading of the `QualityCheckPhase` re-prompt. -/
def qualityCheckSuggestionsPrompt : String := "# Quality Check - Your Suggestions"

/-- Response embedding a regenerated assessment set. -/
def updatedOptionsResponse (refined : String) : String :=
  "# Updated UDL Assessment Options & Rubric\n\n" ++ refined ++
    "\n\n---\n\nProvide more suggestions to iterate, or type finalize to finish."

/-- The restart prompt of the dangling `else` block at the bottom of the
state dispatch (reachable only for states outside the dispatched set,
because the source dedents this `else` to the state chain). -/
def readyPrompt : String := "# Ready for New Session"

/-- Result of one call of the chat handler: the mutated session, whether
a 200 JSON body was returned (`ok = true`) or a 4xx/5xx error, the
`response_content` (or error text), and how many Content Generator
invocations (`generate_udl_assessment_options`, `evaluate_assessment_udl`,
`apply_user_refinements`) the turn performed. -/
structure ChatOutcome where
  session : Session
  ok : Bool
  response : String
  genCalls : Nat
deriving Repr, DecidableEq

/-- Append one transcript entry. -/
def appendMsg (s : Session) (role content : String) : Session :=
  { s with messages := s.messages ++ [⟨role, content⟩] }

/-- Finish a non-error turn: append the assistant response and return it. -/
def finishTurn (s : Session) (response : String) (g : Nat) : ChatOutcome :=
  ⟨appendMsg s "assistant" response, true, response, g⟩

/-- The `/api/chat` handler body of src/app.py, acting on one session
record.  `fuel` bounds the `return chat()` self-call of the `End` state
(Python's `RecursionError` would be caught by the blanket handler and
reported as a 500, which the fuel-0 case mirrors; fuel 2 suffices for
every reachable behaviour because the re-dispatch always starts from
`Start`, which never recurses). -/
def chat (o : Oracle) : Nat → Session → String → ChatOutcome
  | 0, s, _ =>
      ⟨s, false, "Internal server error: maximum recursion depth exceeded", 0⟩
  | fuel + 1, s0, rawMessage =>
      let message := pyStrip rawMessage
      if pyIsEmpty message then ⟨s0, false, "Message is required", 0⟩
      else
        let s1 := appendMsg s0 "user" message
        if s1.state == "Start" then
          if pyStrip (pyLower message) == "design" then
            finishTurn { s1 with branch := some "design", state := "DesignMode" }
              designModePrompt 0
          else if pyStrip (pyLower message) == "evaluate" then
            finishTurn { s1 with branch := some "evaluate", state := "EvaluateMode" }
              evaluateModePrompt 0
          else
            finishTurn s1 welcomePrompt 0
        else if s1.state == "DesignMode" then
          let info_response := extract_basic_info o message
          let extracted := parse_extracted_info info_response
          finishTurn
            { s1 with
              context := mergeExtracted s1.context extracted
              state := "DesignInputReceived" }
            (designInfoResponse info_response) 0
        else if s1.state == "DesignInputReceived" then
          if affirmatives.contains (pyStrip (pyLower message)) then
            finishTurn { s1 with state := "DesignAssessmentYes" } assessmentUploadPrompt 0
          else
            let assessments := generate_udl_assessment_options o s1.context
            finishTurn
              { s1 with
                state := "QualityCheckPhase"
                context :=
                  { s1.context with
                    last_assessments := some assessments
                    last_quality_check := none } }
              (assessmentOptionsResponse assessments) 1
        else if s1.state == "DesignAssessmentYes" then
          if truthy s1.context.assessment_content then
            finishTurn { s1 with state := "DesignAssessmentReceived" }
              assessmentReceivedPrompt 0
          else
            finishTurn
              { s1 with
                state := "DesignAssessmentReceived"
                context := { s1.context with assessment_content := some message } }
              assessmentReceivedPrompt 0
        else if s1.state == "DesignAssessmentReceived" then
          if pyStrip message == "1" then
            let alignment :=
              classify_assessment_udl_alignment o (pyStr s1.context.assessment_content)
            let ctx1 := { s1.context with assessment_alignment := some alignment }
            if alignment == "aligned" then
              let evaluation := evaluate_assessment_udl o (pyStr ctx1.assessment_content)
              finishTurn
                { s1 with
                  state := "EvaluateAligned"
                  context := { ctx1 with evaluation_report := some evaluation } }
                (alignedReportResponse evaluation) 1
            else
              let evaluation := evaluate_assessment_udl o (pyStr ctx1.assessment_content)
              finishTurn
                { s1 with
                  state := "EvaluateNotAligned"
                  context := { ctx1 with evaluation_report := some evaluation } }
                (notAlignedReportResponse evaluation) 1
          else
            let assessments := generate_udl_assessment_options o s1.context
            finishTurn
              { s1 with
                state := "QualityCheckPhase"
                context :=
                  { s1.context with
                    last_assessments := some assessments
                    last_quality_check := none } }
              (assessmentOptionsResponse assessments) 1
        else if s1.state == "DesignAssessmentNo" then
          let assessments := generate_udl_assessment_options o s1.context
          finishTurn { s1 with state := "QualityCheckPhase" }
            (assessmentOptionsQCResponse assessments) 1
        else if s1.state == "EvaluateMode" then
          let info_response := extract_basic_info o message
          let extracted := parse_extracted_info info_response
          finishTurn
            { s1 with
              context := mergeExtracted s1.context extracted
              state := "EvaluateInputReceived" }
            (evaluateInfoResponse info_response) 0
        else if s1.state == "EvaluateInputReceived" then
          let ctx0 := { s1.context with assessment_content := some message }
          let alignment := classify_assessment_udl_alignment o message
          let ctx1 := { ctx0 with assessment_alignment := some alignment }
          if alignment == "aligned" then
            let evaluation := evaluate_assessment_udl o (pyStr ctx1.assessment_content)
            finishTurn
              { s1 with
                state := "EvaluateAligned"
                context := { ctx1 with evaluation_report := some evaluation } }
              (alignedReportResponse evaluation) 1
          else
            let evaluation := evaluate_assessment_udl o (pyStr ctx1.assessment_content)
            finishTurn
              { s1 with
                state := "EvaluateNotAligned"
                context := { ctx1 with evaluation_report := some evaluation } }
              (notAlignedReportResponse evaluation) 1
        else if s1.state == "EvaluateAligned" then
          let evaluation := evaluate_assessment_udl o (pyStr s1.context.assessment_content)
          finishTurn { s1 with state := "End" } (evaluationCompleteResponse evaluation) 1
        else if s1.state == "EvaluateNotAligned" then
          if affirmatives.contains (pyStrip (pyLower message)) then
            let assessments := generate_udl_assessment_options o s1.context
            finishTurn
              { s1 with
                state := "QualityCheckPhase"
                context :=
                  { s1.context with
                    last_assessments := some assessments
                    last_quality_check := none } }
              (assessmentOptionsResponse assessments) 1
          else
            let evaluation := evaluate_assessment_udl o (pyStr s1.context.assessment_content)
            finishTurn { s1 with state := "ProvideNotAlignedReason" }
              (analysisReportResponse evaluation) 1
        else if s1.state == "ProvideNotAlignedReason" then
          finishTurn { s1 with state := "End" } sessionCompletePrompt 0
        else if s1.state == "AssessmentCreationMode" then
          let assessments := generate_udl_assessment_options o s1.context
          finishTurn
            { s1 with
              state := "QualityCheckPhase"
              context :=
                { s1.context with
                  last_assessments := some assessments
                  last_quality_check := none } }
            (assessmentOptionsResponse assessments) 1
        else if s1.state == "QualityCheckPhase" then
          let lower := pyStrip (pyLower message)
          if finalizeWords.contains lower then
            finishTurn { s1 with state := "End" } sessionFinalizedPrompt 0
          else if continueWords.contains lower then
            finishTurn s1 qualityCheckSuggestionsPrompt 0
          else
            let assessments_md := orDefault s1.context.last_assessments "(no assessments cached)"
            let refined := apply_user_refinements o assessments_md message s1.context
            finishTurn
              { s1 with context := { s1.context with last_assessments := some refined } }
              (updatedOptionsResponse refined) 1
        else if s1.state == "IterationPhase" then
          let lower := pyStrip (pyLower message)
          if finalizeWords.contains lower then
            finishTurn { s1 with state := "End" } sessionFinalizedPrompt 0
          else
            let assessments_md := orDefault s1.context.last_assessments "(no assessments cached)"
            let refined := apply_user_refinements o assessments_md message s1.context
            finishTurn
              { s1 with context := { s1.context with last_assessments := some refined } }
              (updatedOptionsResponse refined) 1
        else if s1.state == "End" then
          if (["design", "evaluate"] : List String).contains (pyStrip (pyLower message)) then
            chat o fuel { s1 with state := "Start", branch := none, context := freshContext }
              rawMessage
          else
            finishTurn s1 "" 0
        else
          finishTurn s1 readyPrompt 0

/-- The global `chat_sessions` dict, keyed by token. -/
def SessionStore : Type := String → Option Session

/-- Point update of the store. -/
def storePut (store : SessionStore) (token : String) (s : Session) : SessionStore :=
  fun t => if t == token then some s else store t

/-- `get_or_create_session` of src/app.py: an absent token is silently
given a fresh record; an existing record is returned unchanged. -/
def get_or_create_session (store : SessionStore) (token : String) :
    SessionStore × Session :=
  match store token with
  | some s => (store, s)
  | none => (storePut store token freshSession, freshSession)

/-- Python truthiness of the optional `session_token` field (`None` and
the empty string are falsy), resolved against a freshly generated token. -/
def resolveToken (session_token : Option String) (genToken : String) : String :=
  match session_token with
  | none => genToken
  | some t => if pyIsEmpty t then genToken else t

/-- The `/api/chat` endpoint at store level: reject an empty message
before touching the store, resolve or generate the token, create the
session on demand, run the handler body, and persist the mutated
session under the same token.  `genToken` stands for the
`generate_session_token()` draw. -/
def chat_endpoint (o : Oracle) (fuel : Nat) (store : SessionStore)
    (session_token : Option String) (genToken : String) (raw : String) :
    SessionStore × Except String ChatOutcome :=
  let message := pyStrip raw
  if pyIsEmpty message then (store, Except.error "Message is required")
  else
    let token := resolveToken session_token genToken
    let sc := get_or_create_session store token
    let out := chat o fuel sc.2 raw
    (storePut sc.1 token out.session, Except.ok out)

/-- Outcome of the `/api/upload` endpoint. -/
inductive UploadResult where
  | rejected (error : String)
  | success (text : String)
deriving Repr, DecidableEq

/-- The `/api/upload` endpoint of src/app.py: validate token and
filename, extract the PDF text, then create the session on demand and
overwrite its `assessment_content`.  `file` is the uploaded filename
(`none` when the `file` part is missing); `pdfRead` is the PyPDF2
outcome. -/
def upload_file (store : SessionStore) (session_token : Option String)
    (file : Option String) (pdfRead : Except String String) :
    SessionStore × UploadResult :=
  match session_token with
  | none => (store, UploadResult.rejected "Session token required")
  | some token =>
    if pyIsEmpty token then (store, UploadResult.rejected "Session token required")
    else
      match file with
      | none => (store, UploadResult.rejected "No file uploaded")
      | some filename =>
        if pyIsEmpty filename then (store, UploadResult.rejected "No file selected")
        else if !(pyEndsWith (pyLower filename) ".pdf") then
          (store, UploadResult.rejected "Only PDF files are supported")
        else
          let pdf_text := extract_text_from_pdf pdfRead
          let sc := get_or_create_session store token
          let updated :=
            { sc.2 with context := { sc.2.context with assessment_content := some pdf_text } }
          (storePut sc.1 token updated, UploadResult.success pdf_text)

/-- Outcome of the `/api/session/token/reset` endpoint. -/
inductive ResetResult where
  | notFound
  | ok
deriving Repr, DecidableEq

/-- `reset_session` of src/app.py: a missing token is a 404; an existing
record is replaced wholesale by a fresh one under the same token. -/
def reset_session (store : SessionStore) (token : String) :
    SessionStore × ResetResult :=
  match store token with
  | none => (store, ResetResult.notFound)
  | some _ => (storePut store token freshSession, ResetResult.ok)

/-- Test oracle whose capability calls all succeed with fixed text. -/
def okOracle : Oracle where
  clientConfigured := true
  extractInfo := fun _ => Except.ok "OBJECTIVES: algebra basics\nGRADE: 7\nSUBJECT: Math"
  classifyAlignment := fun _ => Except.ok "ALIGNED"
  generateOptions := fun _ => Except.ok "generated assessment options"
  evaluateAssessment := fun _ => Except.ok "evaluation report"
  applyRefinements := fun _ _ _ => Except.ok "refined assessment options"

/-- Test oracle whose capability calls all raise. -/
def failOracle : Oracle where
  clientConfigured := true
  extractInfo := fun _ => Except.error "boom"
  classifyAlignment := fun _ => Except.error "boom"
  generateOptions := fun _ => Except.error "boom"
  evaluateAssessment := fun _ => Except.error "boom"
  applyRefinements := fun _ _ _ => Except.error "boom"

/-- Test oracle whose extractor answers with sentinel grade and subject. -/
def sentinelOracle : Oracle :=
  { okOracle with
    extractInfo := fun _ =>
      Except.ok "OBJECTIVES: Improve writing\nGRADE: Not specified\nSUBJECT: Not specified" }

/-- Test oracle whose alignment classifier answers with the
out-of-protocol word `UNALIGNED` (neither of the two answers the prompt
asks for, yet containing `ALIGNED` as a substring). -/
def unalignedOracle : Oracle :=
  { okOracle with classifyAlignment := fun _ => Except.ok "UNALIGNED" }

/-- Test oracle whose alignment classifier answers `MISALIGNED`. -/
def misalignedOracle : Oracle :=
  { okOracle with classifyAlignment := fun _ => Except.ok "MISALIGNED" }

/-- A `DesignMode` session whose grade and subject slots already hold
concrete values. -/
def designSessionWithSlots : Session :=
  ⟨[], "DesignMode", some "design",
    { freshContext with grade_level := some "8", subject := some "Biology" }⟩

/-- A context holding a cached artifact for the refinement loop. -/
def qcContextFixture : Context :=
  { freshContext with last_assessments := some "Option A..." }

/-- A finished session sitting in the `End` state. -/
def endSessionFixture : Session :=
  ⟨[⟨"user", "quiz"⟩], "End", some "design",
    { freshContext with grade_level := some "8" }⟩

/-- A one-session store fixture. -/
def storeFixture : SessionStore :=
  fun t => if t == "tok123" then some endSessionFixture else none

/-- C1, counterexample: the claim says a failing capability call leaves
the session state unchanged for the turn, but a turn from `DesignMode`
whose slot-extraction call raises still advances the state to
`DesignInputReceived` and is reported as a normal (200) result. -/
theorem c1_counterexample :
    (chat failOracle 2 ⟨[], "DesignMode", some "design", freshContext⟩
        "teach fractions").session.state = "DesignInputReceived" ∧
    (chat failOracle 2 ⟨[], "DesignMode", some "design", freshContext⟩
        "teach fractions").ok = true ∧
    ("DesignInputReceived" : String) ≠ "DesignMode" :=
  ⟨rfl, rfl, by decide⟩

/-- C1, amended: when a capability call fails during the turn, the
wrapper converts the exception into an ordinary error string and the
turn proceeds as normal — from `DesignMode` the state still advances to
`DesignInputReceived`, the error text is embedded in the outbound
message, the slot fields are overwritten with the parse of the error
text, and the caller receives a normal result, not an error. -/
theorem c1_amended_failure_proceeds (o : Oracle) (msgs : List ChatMessage)
    (b : Option String) (ctx : Context) (m e : String)
    (hm : pyIsEmpty (pyStrip m) = false) (hcfg : o.clientConfigured = true)
    (hf : o.extractInfo (pyStrip m) = Except.error e) :
    (chat o 2 ⟨msgs, "DesignMode", b, ctx⟩ m).ok = true ∧
    (chat o 2 ⟨msgs, "DesignMode", b, ctx⟩ m).session.state = "DesignInputReceived" ∧
    (chat o 2 ⟨msgs, "DesignMode", b, ctx⟩ m).session.context =
      mergeExtracted ctx (parse_extracted_info ("Error extracting information: " ++ e)) ∧
    (chat o 2 ⟨msgs, "DesignMode", b, ctx⟩ m).response =
      designInfoResponse ("Error extracting information: " ++ e) := by
  have hx : extract_basic_info o (pyStrip m) = "Error extracting information: " ++ e := by
    simp [extract_basic_info, hcfg, hf]
  refine ⟨?_, ?_, ?_, ?_⟩ <;> · simp only [chat, hm, hx]; rfl

/-- C1, witness for the amended theorem at a concrete failing oracle. -/
theorem c1_witness :
    (chat failOracle 2 ⟨[], "DesignMode", some "design", freshContext⟩
        "teach fractions").ok = true ∧
    (chat failOracle 2 ⟨[], "DesignMode", some "design", freshContext⟩
        "teach fractions").session.state = "DesignInputReceived" ∧
    (chat failOracle 2 ⟨[], "DesignMode", some "design", freshContext⟩
        "teach fractions").session.context =
      mergeExtracted freshContext
        (parse_extracted_info ("Error extracting information: " ++ "boom")) ∧
    (chat failOracle 2 ⟨[], "DesignMode", some "design", freshContext⟩
        "teach fractions").response =
      designInfoResponse ("Error extracting information: " ++ "boom") :=
  c1_amended_failure_proceeds failOracle [] (some "design") freshContext
    "teach fractions" "boom" (by decide) rfl rfl

/-- C2, counterexample: the claim says a stored concrete slot value is
never cleared by a later classifier result whose field is the
`Not specified` sentinel, but a `DesignMode` turn whose extractor
answers with sentinel grade and subject wipes the stored grade `8` and
subject `Biology` back to empty, because the handler folds the parse
result in with an unconditional dict update. -/
theorem c2_counterexample :
    designSessionWithSlots.context.grade_level = some "8" ∧
    designSessionWithSlots.context.subject = some "Biology" ∧
    (chat sentinelOracle 2 designSessionWithSlots "objectives only").session.context.grade_level
      = none ∧
    (chat sentinelOracle 2 designSessionWithSlots "objectives only").session.context.subject
      = none :=
  ⟨rfl, rfl, rfl, rfl⟩

/-- C2, amended: merging a classifier result replaces all three slot
fields unconditionally with the parsed values — after a `DesignMode`
turn the slots equal the parse of the extractor output regardless of
what the context held before, so a sentinel (or absent) field clears a
previously stored value instead of preserving it. -/
theorem c2_amended_merge_overwrites (o : Oracle) (msgs : List ChatMessage)
    (b : Option String) (ctx : Context) (m : String)
    (hm : pyIsEmpty (pyStrip m) = false) :
    (chat o 2 ⟨msgs, "DesignMode", b, ctx⟩ m).session.context.learning_objectives =
      (parse_extracted_info (extract_basic_info o (pyStrip m))).learning_objectives ∧
    (chat o 2 ⟨msgs, "DesignMode", b, ctx⟩ m).session.context.grade_level =
      (parse_extracted_info (extract_basic_info o (pyStrip m))).grade_level ∧
    (chat o 2 ⟨msgs, "DesignMode", b, ctx⟩ m).session.context.subject =
      (parse_extracted_info (extract_basic_info o (pyStrip m))).subject := by
  refine ⟨?_, ?_, ?_⟩ <;> · simp only [chat, hm]; rfl

/-- C2, witness for the amended theorem at the sentinel-answer oracle. -/
theorem c2_witness :
    (chat sentinelOracle 2 ⟨[], "DesignMode", some "design", freshContext⟩
        "objectives only").session.context.learning_objectives =
      (parse_extracted_info
        (extract_basic_info sentinelOracle (pyStrip "objectives only"))).learning_objectives ∧
    (chat sentinelOracle 2 ⟨[], "DesignMode", some "design", freshContext⟩
        "objectives only").session.context.grade_level =
      (parse_extracted_info
        (extract_basic_info sentinelOracle (pyStrip "objectives only"))).grade_level ∧
    (chat sentinelOracle 2 ⟨[], "DesignMode", some "design", freshContext⟩
        "objectives only").session.context.subject =
      (parse_extracted_info
        (extract_basic_info sentinelOracle (pyStrip "objectives only"))).subject :=
  c2_amended_merge_overwrites sentinelOracle [] (some "design") freshContext
    "objectives only" (by decide)

/-- C3: the source dedents the restart-prompt `else` to the state
dispatch chain, so a turn from `End` whose message is neither `design`
nor `evaluate` leaves `response_content` as the empty string — the
session stays in `End` as claimed, but the appended outbound message is
empty, not a non-empty restart prompt. -/
theorem c3_bug_exhibit :
    (chat okOracle 2 ⟨[], "End", some "design", freshContext⟩ "hello").session.state = "End" ∧
    (chat okOracle 2 ⟨[], "End", some "design", freshContext⟩ "hello").response = "" ∧
    (chat okOracle 2 ⟨[], "End", some "design", freshContext⟩ "hello").session.messages =
      [⟨"user", "hello"⟩, ⟨"assistant", ""⟩] ∧
    (chat okOracle 2 ⟨[], "End", some "design", freshContext⟩ "hello").ok = true :=
  ⟨rfl, rfl, rfl, rfl⟩

/-- C4, counterexample: the claim says an unparseable classifier result
defaults to `not_aligned` and never routes to `EvaluateAligned`, but the
parse is a substring test — the out-of-protocol responses `UNALIGNED`
and `MISALIGNED` contain `ALIGNED` and not `NOT`, so the code certifies
them as `aligned` and the `EvaluateInputReceived` turn routes straight
to `EvaluateAligned`. -/
theorem c4_counterexample :
    classify_assessment_udl_alignment unalignedOracle (pyStrip "my quiz") = "aligned" ∧
    (chat unalignedOracle 2 ⟨[], "EvaluateInputReceived", some "evaluate", freshContext⟩
        "my quiz").session.state = "EvaluateAligned" ∧
    (chat unalignedOracle 2 ⟨[], "EvaluateInputReceived", some "evaluate", freshContext⟩
        "my quiz").session.context.assessment_alignment = some "aligned" ∧
    classify_assessment_udl_alignment misalignedOracle (pyStrip "my quiz") = "aligned" ∧
    (chat misalignedOracle 2 ⟨[], "EvaluateInputReceived", some "evaluate", freshContext⟩
        "my quiz").session.state = "EvaluateAligned" :=
  ⟨rfl, rfl, rfl, rfl, rfl⟩

/-- C4, amended: the verdict defaults to `not_aligned` — routing the
`EvaluateInputReceived` turn to `EvaluateNotAligned` — when the
classifier call raises or when its stripped upper-cased response does
not contain the substring `ALIGNED`; but the parse is only a substring
test, so any response containing `ALIGNED` and not containing `NOT`
(including unparseable ones such as `UNALIGNED`) is certified `aligned`
and routes to `EvaluateAligned`.  In either case the verdict entering
the state machine is exactly `aligned` or `not_aligned`. -/
theorem c4_amended_alignment_routing (o : Oracle) (msgs : List ChatMessage)
    (b : Option String) (ctx : Context) (m : String)
    (hm : pyIsEmpty (pyStrip m) = false) (hcfg : o.clientConfigured = true) :
    (((∃ e, o.classifyAlignment (pyStrip m) = Except.error e) ∨
      (∃ r, o.classifyAlignment (pyStrip m) = Except.ok r ∧
         containsStr (pyUpper (pyStrip r)) "ALIGNED" = false)) →
      classify_assessment_udl_alignment o (pyStrip m) = "not_aligned" ∧
      (chat o 2 ⟨msgs, "EvaluateInputReceived", b, ctx⟩ m).session.context.assessment_alignment
        = some "not_aligned" ∧
      (chat o 2 ⟨msgs, "EvaluateInputReceived", b, ctx⟩ m).session.state
        = "EvaluateNotAligned") ∧
    (∀ r, o.classifyAlignment (pyStrip m) = Except.ok r →
      containsStr (pyUpper (pyStrip r)) "ALIGNED" = true →
      containsStr (pyUpper (pyStrip r)) "NOT" = false →
      classify_assessment_udl_alignment o (pyStrip m) = "aligned" ∧
      (chat o 2 ⟨msgs, "EvaluateInputReceived", b, ctx⟩ m).session.context.assessment_alignment
        = some "aligned" ∧
      (chat o 2 ⟨msgs, "EvaluateInputReceived", b, ctx⟩ m).session.state
        = "EvaluateAligned") := by
  constructor
  · intro h
    have hcl : classify_assessment_udl_alignment o (pyStrip m) = "not_aligned" := by
      rcases h with ⟨e, he⟩ | ⟨r, hr, hal⟩
      · simp [classify_assessment_udl_alignment, hcfg, he]
      · simp [classify_assessment_udl_alignment, hcfg, hr, hal]
    refine ⟨hcl, ?_, ?_⟩ <;> · simp only [chat, hm, hcl]; rfl
  · intro r hr hal hnot
    have hcl : classify_assessment_udl_alignment o (pyStrip m) = "aligned" := by
      simp [classify_assessment_udl_alignment, hcfg, hr, hal, hnot]
    refine ⟨hcl, ?_, ?_⟩ <;> · simp only [chat, hm, hcl]; rfl

/-- C4, witness for the amended theorem at a concrete raising
classifier (the fail-safe direction). -/
theorem c4_amended_witness :
    classify_assessment_udl_alignment failOracle (pyStrip "my quiz") = "not_aligned" ∧
    (chat failOracle 2 ⟨[], "EvaluateInputReceived", some "evaluate", freshContext⟩
        "my quiz").session.context.assessment_alignment = some "not_aligned" ∧
    (chat failOracle 2 ⟨[], "EvaluateInputReceived", some "evaluate", freshContext⟩
        "my quiz").session.state = "EvaluateNotAligned" :=
  (c4_amended_alignment_routing failOracle [] (some "evaluate") freshContext "my quiz"
    (by decide) rfl).1 (Or.inl ⟨"boom", rfl⟩)

/-- C5, counterexample: the claim includes `i do` and `i have it` in the
affirmative set, but from `DesignInputReceived` the message `i do` takes
the negative branch into `QualityCheckPhase` instead of
`DesignAssessmentYes` (the source list stops at `sure`). -/
theorem c5_counterexample :
    (chat okOracle 2 ⟨[], "DesignInputReceived", some "design", freshContext⟩
        "i do").session.state = "QualityCheckPhase" ∧
    (chat okOracle 2 ⟨[], "DesignInputReceived", some "design", freshContext⟩
        "i have it").session.state = "QualityCheckPhase" ∧
    ("QualityCheckPhase" : String) ≠ "DesignAssessmentYes" :=
  ⟨rfl, rfl, by decide⟩

/-- C5, amended: the affirmative set is exactly the case-insensitive
`{yes, y, yeah, yep, sure}` — from `DesignInputReceived` a (nonempty)
message whose lower-cased trim is in the list transitions to
`DesignAssessmentYes` and every other nonempty message goes to
`QualityCheckPhase`; an empty message never reaches the state machine
because the endpoint rejects it first. -/
theorem c5_amended_affirmative_set (o : Oracle) (msgs : List ChatMessage)
    (b : Option String) (ctx : Context) (m : String)
    (hm : pyIsEmpty (pyStrip m) = false) :
    affirmatives = ["yes", "y", "yeah", "yep", "sure"] ∧
    (chat o 2 ⟨msgs, "DesignInputReceived", b, ctx⟩ m).session.state =
      (if affirmatives.contains (pyStrip (pyLower (pyStrip m))) then "DesignAssessmentYes"
       else "QualityCheckPhase") ∧
    (chat o 2 ⟨[], "Start", none, freshContext⟩ "").ok = false := by
  refine ⟨rfl, ?_, rfl⟩
  cases hc : affirmatives.contains (pyStrip (pyLower (pyStrip m))) <;>
    · simp only [chat, hm, hc]; rfl

/-- C5, witness for the amended theorem at an affirmative message. -/
theorem c5_witness :
    (chat okOracle 2 ⟨[], "DesignInputReceived", some "design", freshContext⟩
        " YEAH ").session.state = "DesignAssessmentYes" :=
  (c5_amended_affirmative_set okOracle [] (some "design") freshContext
    " YEAH " (by decide)).2.1

/-- C6: from `End` with message `evaluate` (respectively `design`) the
handler clears branch and context and re-enters itself — the turn is
literally the turn of a session whose state is `Start` with empty
branch and fresh context (with the user message appended once more, as
the source's self-call re-appends it), landing in `EvaluateMode`
(respectively `DesignMode`) with the matching branch and a fully nulled
context. -/
theorem c6_end_mode_redispatch (o : Oracle) (msgs : List ChatMessage)
    (b : Option String) (ctx : Context) :
    chat o 2 ⟨msgs, "End", b, ctx⟩ "evaluate" =
      chat o 1 ⟨msgs ++ [⟨"user", "evaluate"⟩], "Start", none, freshContext⟩ "evaluate" ∧
    (chat o 2 ⟨msgs, "End", b, ctx⟩ "evaluate").session.state = "EvaluateMode" ∧
    (chat o 2 ⟨msgs, "End", b, ctx⟩ "evaluate").session.branch = some "evaluate" ∧
    (chat o 2 ⟨msgs, "End", b, ctx⟩ "evaluate").session.context = freshContext ∧
    chat o 2 ⟨msgs, "End", b, ctx⟩ "design" =
      chat o 1 ⟨msgs ++ [⟨"user", "design"⟩], "Start", none, freshContext⟩ "design" ∧
    (chat o 2 ⟨msgs, "End", b, ctx⟩ "design").session.state = "DesignMode" ∧
    (chat o 2 ⟨msgs, "End", b, ctx⟩ "design").session.branch = some "design" ∧
    (chat o 2 ⟨msgs, "End", b, ctx⟩ "design").session.context = freshContext :=
  ⟨rfl, rfl, rfl, rfl, rfl, rfl, rfl, rfl⟩

/-- C7: resetting any existing session yields, under the same token, a
record in state `Start` with no branch, an empty transcript and every
context field empty. -/
theorem c7_reset_total (store : SessionStore) (token : String) (s : Session)
    (h : store token = some s) :
    (reset_session store token).2 = ResetResult.ok ∧
    (reset_session store token).1 token = some freshSession ∧
    freshSession.state = "Start" ∧ freshSession.branch = none ∧
    freshSession.messages = ([] : List ChatMessage) ∧
    freshSession.context = freshContext := by
  unfold reset_session
  rw [h]
  refine ⟨rfl, ?_, rfl, rfl, rfl, rfl⟩
  simp [storePut]

/-- C7, witness: reset of the concrete one-session store. -/
theorem c7_witness :
    (reset_session storeFixture "tok123").2 = ResetResult.ok ∧
    (reset_session storeFixture "tok123").1 "tok123" = some freshSession ∧
    freshSession.state = "Start" ∧ freshSession.branch = none ∧
    freshSession.messages = ([] : List ChatMessage) ∧
    freshSession.context = freshContext :=
  c7_reset_total storeFixture "tok123" endSessionFixture rfl

/-- C8: from `QualityCheckPhase`, a message whose lower-cased trim is
`finalize`, `done` or `finish` moves the session to `End`, leaves every
context field (in particular the cached artifact) and the branch
untouched, performs no Content Generator call, and answers with the
finalisation text. -/
theorem c8_finalize_frame (o : Oracle) (msgs : List ChatMessage)
    (b : Option String) (ctx : Context) (m : String)
    (hm : pyIsEmpty (pyStrip m) = false)
    (hfin : pyStrip (pyLower (pyStrip m)) = "finalize" ∨
            pyStrip (pyLower (pyStrip m)) = "done" ∨
            pyStrip (pyLower (pyStrip m)) = "finish") :
    (chat o 2 ⟨msgs, "QualityCheckPhase", b, ctx⟩ m).session.state = "End" ∧
    (chat o 2 ⟨msgs, "QualityCheckPhase", b, ctx⟩ m).session.context = ctx ∧
    (chat o 2 ⟨msgs, "QualityCheckPhase", b, ctx⟩ m).session.branch = b ∧
    (chat o 2 ⟨msgs, "QualityCheckPhase", b, ctx⟩ m).genCalls = 0 ∧
    (chat o 2 ⟨msgs, "QualityCheckPhase", b, ctx⟩ m).response = sessionFinalizedPrompt := by
  have hc : finalizeWords.contains (pyStrip (pyLower (pyStrip m))) = true := by
    rcases hfin with h | h | h <;> rw [h] <;> decide
  refine ⟨?_, ?_, ?_, ?_, ?_⟩ <;> · simp only [chat, hm, hc]; rfl

/-- C8, witness at the cached-artifact fixture and message `finalize`. -/
theorem c8_witness :
    (chat okOracle 2 ⟨[], "QualityCheckPhase", some "design", qcContextFixture⟩
        "finalize").session.state = "End" ∧
    (chat okOracle 2 ⟨[], "QualityCheckPhase", some "design", qcContextFixture⟩
        "finalize").session.context = qcContextFixture ∧
    (chat okOracle 2 ⟨[], "QualityCheckPhase", some "design", qcContextFixture⟩
        "finalize").session.branch = some "design" ∧
    (chat okOracle 2 ⟨[], "QualityCheckPhase", some "design", qcContextFixture⟩
        "finalize").genCalls = 0 ∧
    (chat okOracle 2 ⟨[], "QualityCheckPhase", some "design", qcContextFixture⟩
        "finalize").response = sessionFinalizedPrompt :=
  c8_finalize_frame okOracle [] (some "design") qcContextFixture "finalize"
    (by decide) (Or.inl (by decide))

/-- C9: merging the same classifier result into a context twice produces
the same context as merging it once (the fold of a parse result into
the Context Store is a pure function of the old context and the result,
and re-applying it changes nothing). -/
theorem c9_merge_idempotent (ctx : Context) (r : String) :
    mergeExtracted (mergeExtracted ctx (parse_extracted_info r)) (parse_extracted_info r) =
      mergeExtracted ctx (parse_extracted_info r) :=
  rfl

/-- C10: an unseen token is silently given a fresh record — state
`Start`, no branch, all five context fields `None` — by both the chat
endpoint and the upload endpoint: the chat turn behaves exactly as the
handler run on the fresh record, and an upload bearing an arbitrary
unseen token succeeds (no not-found result) and leaves behind that
fresh record with only `assessment_content` filled by the extraction. -/
theorem c10_unknown_token_creates (o : Oracle) (fuel : Nat) (store : SessionStore)
    (token genToken raw : String) (pdfRead : Except String String)
    (hTok : store token = none) (hne : pyIsEmpty token = false)
    (hmsg : pyIsEmpty (pyStrip raw) = false) :
    freshSession.state = "Start" ∧ freshSession.branch = none ∧
    freshSession.context.learning_objectives = none ∧
    freshSession.context.grade_level = none ∧
    freshSession.context.subject = none ∧
    freshSession.context.assessment_content = none ∧
    freshSession.context.assessment_alignment = none ∧
    (get_or_create_session store token).1 token = some freshSession ∧
    (chat_endpoint o fuel store (some token) genToken raw).2 =
      Except.ok (chat o fuel freshSession raw) ∧
    (chat_endpoint o fuel store (some token) genToken raw).1 token =
      some (chat o fuel freshSession raw).session ∧
    (upload_file store (some token) (some "assessment.pdf") pdfRead).2 =
      UploadResult.success (extract_text_from_pdf pdfRead) ∧
    (upload_file store (some token) (some "assessment.pdf") pdfRead).1 token =
      some { freshSession with
             context := { freshContext with
                          assessment_content := some (extract_text_from_pdf pdfRead) } } := by
  have hg : get_or_create_session store token =
      (storePut store token freshSession, freshSession) := by
    unfold get_or_create_session
    rw [hTok]
  have hput : ∀ s' : Session, storePut store token s' token = some s' := by
    intro s'
    simp [storePut]
  have hf1 : pyIsEmpty ("assessment.pdf" : String) = false := rfl
  have hf2 : pyEndsWith (pyLower "assessment.pdf") ".pdf" = true := rfl
  have hep : chat_endpoint o fuel store (some token) genToken raw =
      (storePut (storePut store token freshSession) token
        (chat o fuel freshSession raw).session,
       Except.ok (chat o fuel freshSession raw)) := by
    simp [chat_endpoint, hmsg, resolveToken, hne, hg]
  have hup : upload_file store (some token) (some "assessment.pdf") pdfRead =
      (storePut (storePut store token freshSession) token
        { freshSession with
          context := { freshContext with
                       assessment_content := some (extract_text_from_pdf pdfRead) } },
       UploadResult.success (extract_text_from_pdf pdfRead)) := by
    simp [upload_file, hne, hf1, hf2, hg]
    rfl
  refine ⟨rfl, rfl, rfl, rfl, rfl, rfl, rfl, ?_, ?_, ?_, ?_, ?_⟩
  · rw [hg]; exact hput freshSession
  · rw [hep]
  · rw [hep]; simp [storePut]
  · rw [hup]
  · rw [hup]; simp [storePut]

/-- C10, witness at the empty store and a concrete token. -/
theorem c10_witness :
    freshSession.state = "Start" ∧ freshSession.branch = none ∧
    freshSession.context.learning_objectives = none ∧
    freshSession.context.grade_level = none ∧
    freshSession.context.subject = none ∧
    freshSession.context.assessment_content = none ∧
    freshSession.context.assessment_alignment = none ∧
    (get_or_create_session (fun _ => none) "newtok").1 "newtok" = some freshSession ∧
    (chat_endpoint okOracle 2 (fun _ => none) (some "newtok") "gen" "design").2 =
      Except.ok (chat okOracle 2 freshSession "design") ∧
    (chat_endpoint okOracle 2 (fun _ => none) (some "newtok") "gen" "design").1 "newtok" =
      some (chat okOracle 2 freshSession "design").session ∧
    (upload_file (fun _ => none) (some "newtok") (some "assessment.pdf")
        (Except.ok " doc ")).2 =
      UploadResult.success (extract_text_from_pdf (Except.ok " doc ")) ∧
    (upload_file (fun _ => none) (some "newtok") (some "assessment.pdf")
        (Except.ok " doc ")).1 "newtok" =
      some { freshSession with
             context := { freshContext with
                          assessment_content :=
                            some (extract_text_from_pdf (Except.ok " doc ")) } } :=
  c10_unknown_token_creates okOracle 2 (fun _ => none) "newtok" "gen" "design"
    (Except.ok " doc ") rfl rfl (by decide)

end UDL
